import Mathlib

/-!
# Verification of the AI-Knowledge-Assistant backend

A shallow embedding of the retrieval-augmented query pipeline of the
repository `saqib-svg/AI-Knowledge-Assistant`:

* `backend/search.py`   — Elasticsearch index operations (`index_document`,
  `search_documents`);
* `backend/llm.py`      — embedder (`get_embedding`) and the context
  truncation performed by `generate_answer`;
* `backend/database.py` — Redis status/cache store (`get_redis_client`
  yields `none` when the store is unreachable at connection time);
* `backend/celery_worker.py` — the ingestion worker task `process_document`;
* `backend/main.py`     — the chat-message query pipeline
  (`create_chat_message`) and the cache key of the `/query` endpoint
  (`query_knowledge_base`).

External collaborators (the Elasticsearch server, the sentence-transformers
encoder, the LLM, the random number source and the MD5 digest) are modelled
as explicit parameters; everything the Python source itself does is
translated into executable Lean definitions.

Python strings are modelled by `String` (a sequence of code points, exactly
Python's `str`); Python slicing `s[:n]` is `String.mk (s.data.take n)`.
Python list truthiness (`if xs:`) is `xs.isEmpty` tested for `false`.
-/

namespace AIKA

/-! ## Status/cache store (`backend/database.py` and Redis usage sites)

The Redis store is a single key-value map with per-key TTLs.  We record the
TTL passed to `setex` as data; claims never need actual clock expiry, only
which keys were written and with which TTL.  `get_redis_client` returning
`None` on a connection failure is modelled by an `Option RedisState`. -/

/-- The key-value store: entries `(key, ttl, value)`; a later entry for a
key shadows older ones. -/
def RedisState : Type := List (String × Nat × String)

instance : DecidableEq RedisState := by
  unfold RedisState
  infer_instance

/-- `client.get(k)` (with `decode_responses=True`): the stored string, or
`none` on a miss. -/
def rget (s : RedisState) (k : String) : Option String :=
  (s.find? (fun e => e.1 == k)).map (fun e => e.2.2)

/-- `client.setex(k, ttl, v)`: store `v` under `k` with time-to-live `ttl`,
replacing any previous entry for `k`. -/
def rsetex (s : RedisState) (k : String) (ttl : Nat) (v : String) : RedisState :=
  (k, ttl, v) :: s.filter (fun e => !(e.1 == k))

/-- Status reported for one document by `GET /chats/{id}/documents`
(`main.py`, `list_chat_documents`, lines 415-431):
`status = "unknown"`, then if a Redis client is available,
`status = redis_client.get(f"doc_status:{es_id}") or "ready"`.
The `or "ready"` makes both a missing key and an empty string degrade to
`"ready"`; with no client the initial `"unknown"` is returned. -/
def docStatus (redis : Option RedisState) (es_id : String) : String :=
  match redis with
  | none => "unknown"
  | some s =>
    match rget s ("doc_status:" ++ es_id) with
    | none => "ready"
    | some v => if v = "" then "ready" else v

/-! ## Document index (`backend/search.py`)

The Elasticsearch server is modelled by an `ESEngine`: a connection flag
(`es_client is None` when `client = false`), the stored documents, a fault
flag for `es_client.index` raising, and the engine's knn ranking function.
The ranking (cosine-similarity ordering, `num_candidates`) is the server's
own algorithm, hence a parameter; the `terms` filter on `_id` that
`search_documents` attaches restricts the candidate documents, which we
model by filtering the stored documents before ranking. -/

/-- A stored document: `es_client.index(id, {content, embedding, metadata})`. -/
structure ESDoc where
  id : String
  content : String
  embedding : List Float
  metadata : List (String × String)

/-- One search hit as returned by `search_documents`: the `_source` fields
`content` and `metadata` (and the hit's `_id`, which Elasticsearch carries
on every hit; scores are not modelled). -/
structure SearchHit where
  id : String
  content : String
  metadata : List (String × String)
deriving DecidableEq

/-- The external Elasticsearch server. -/
structure ESEngine where
  /-- `false` models `es_client is None` (connection failed at import). -/
  client : Bool
  /-- Documents currently stored in the index. -/
  docs : List ESDoc
  /-- `true` models `es_client.index` raising (caught by `index_document`). -/
  writeFault : Bool
  /-- The engine's knn ranking: given eligible documents, a query vector and
  `k`, the ranked hits (a selection from the eligible documents). -/
  rank : List ESDoc → List Float → Nat → List ESDoc

/-- `index_document(doc_id, content, embedding, metadata)`
(`search.py` lines 48-83).  Returns the `True`/`False` success flag and the
resulting index contents.  Validation: client present, `embedding` truthy
(non-empty; it is always a `list` in the model), length exactly 384; then
the write, whose exception is caught and turned into `False`. -/
def index_document (es : ESEngine) (doc_id content : String)
    (embedding : List Float) (metadata : List (String × String)) :
    Bool × List ESDoc :=
  if es.client = false then (false, es.docs)
  else if embedding.isEmpty then (false, es.docs)
  else if embedding.length ≠ 384 then (false, es.docs)
  else if es.writeFault then (false, es.docs)
  else (true, ⟨doc_id, content, embedding, metadata⟩ ::
    es.docs.filter (fun d => !(d.id == doc_id)))

/-- `search_documents(query_embedding, allowed_ids, top_k)`
(`search.py` lines 85-151), instrumented: the second component records
whether the knn query was actually sent to the index.  Control flow in
source order: client check; query-embedding truthiness and length-384
validation; `allowed_ids is not None and len(allowed_ids) == 0` returns no
results; a `terms` filter on `_id` is attached when `allowed_ids` is truthy
(non-`None` and non-empty); finally the knn search.  Any search exception
is caught and yields `[]`; exceptions are not separately modelled because
every failure mode the claims touch is already a returned value. -/
def search_documents_run (es : ESEngine) (query_embedding : List Float)
    (allowed_ids : Option (List String)) (top_k : Nat := 3) :
    List SearchHit × Bool :=
  if es.client = false then ([], false)
  else if query_embedding.isEmpty then ([], false)
  else if query_embedding.length ≠ 384 then ([], false)
  else if allowed_ids = some [] then ([], false)
  else
    let eligible :=
      match allowed_ids with
      | some ids => if ids.isEmpty then es.docs
          else es.docs.filter (fun d => ids.contains d.id)
      | none => es.docs
    ((es.rank eligible query_embedding top_k).map
      (fun d => ⟨d.id, d.content, d.metadata⟩), true)

/-- The result list of `search_documents` (what callers in `main.py` see). -/
def search_documents (es : ESEngine) (query_embedding : List Float)
    (allowed_ids : Option (List String)) (top_k : Nat := 3) :
    List SearchHit :=
  (search_documents_run es query_embedding allowed_ids top_k).1

/-! ## Embedder (`backend/llm.py`, `get_embedding`, lines 206-251)

The sentence-transformers encoder is external: it is a parameter of type
`String → Except String (List Float)` (`Except.error` models the encoder
raising).  `random.random()` is modelled by a parameter `rng : Nat → Float`
supplying the successive draws of the pseudo-random fallback. -/

/-- `[random.random() for _ in range(384)]`. -/
def pseudoRandomEmbedding (rng : Nat → Float) : List Float :=
  (List.range 384).map rng

/-- `get_embedding(text)`: if an embedding model is loaded, truncate the
text to `512 * 4` characters, encode, and raise `ValueError` when the
dimension is not 384 — but that raise sits inside the same `try`, so it and
any encoder exception fall back to a pseudo-random 384-vector.  With no
model loaded the pseudo-random vector is returned directly.  The function
is total: it never raises to its caller. -/
def get_embedding (emodel : Option (String → Except String (List Float)))
    (rng : Nat → Float) (text : String) : List Float :=
  match emodel with
  | none => pseudoRandomEmbedding rng
  | some encode =>
    let t := if text.length > 512 * 4 then String.mk (text.data.take (512 * 4)) else text
    match encode t with
    | Except.error _ => pseudoRandomEmbedding rng
    | Except.ok e => if e.length ≠ 384 then pseudoRandomEmbedding rng else e

/-! ## Answer-generator context truncation (`backend/llm.py`,
`generate_answer`, lines 80-84 and 166-169)

Only the deterministic context-truncation step is in-repo logic; the LLM
response itself is external.  The Gemini branch truncates to 15000
characters and appends a visible marker; the OpenAI branch truncates to
12000 characters with no marker. -/

/-- The marker the Gemini branch appends:
`"\n\n[Context truncated for length...]"`. -/
def gemini_trunc_marker : String := "\n\n[Context truncated for length...]"

/-- Context actually submitted by the Gemini branch
(`llm.py` lines 80-84): `context[:15000] + marker` when over budget. -/
def geminiSubmittedContext (context : String) : String :=
  if context.length > 15000 then
    String.mk (context.data.take 15000) ++ gemini_trunc_marker
  else context

/-- Context actually submitted by the OpenAI branch
(`llm.py` lines 166-169): `context[:12000]` when over budget, no marker. -/
def openaiSubmittedContext (context : String) : String :=
  if context.length > 12000 then String.mk (context.data.take 12000)
  else context

/-! ## Cache keys

* `/query` (`main.py` line 239):
  `cache_key = f"{query}:{','.join(doc_ids) if doc_ids else 'all'}"` —
  the ids are joined in the order given, unsorted.
* `create_chat_message` (`main.py` lines 529-535): `docs_hash = "nodocs"`
  when no docs are linked, else `md5("".join(sorted(es_ids)))`;
  `cache_key = f"{msg.content}:{docs_hash}"`.  MD5 is external and is a
  parameter `md5h : String → String`. -/

/-- Cache key of the `/query` endpoint (`query_knowledge_base`). -/
def qkb_cache_key (query : String) (doc_ids : Option (List String)) : String :=
  query ++ ":" ++
    (match doc_ids with
     | some ids => if ids.isEmpty then "all" else String.intercalate "," ids
     | none => "all")

/-- `es_ids.sort()` — Python's in-place lexicographic sort.  On strings any
correct sort yields the same list, so insertion sort is a faithful model. -/
def sortStrings (l : List String) : List String :=
  List.insertionSort (· ≤ ·) l

/-- `docs_hash` of `create_chat_message`:
`"nodocs"` when `es_ids` is empty, else
`hashlib.md5("".join(es_ids_sorted)).hexdigest()`. -/
def docsHash (md5h : String → String) (es_ids : List String) : String :=
  if es_ids.isEmpty then "nodocs" else md5h (String.join (sortStrings es_ids))

/-- `cache_key = f"{msg.content}:{docs_hash}"` of `create_chat_message`. -/
def chatCacheKey (md5h : String → String) (content : String)
    (es_ids : List String) : String :=
  content ++ ":" ++ docsHash md5h es_ids

/-! ## The chat-message pipeline (`backend/main.py`, `create_chat_message`,
lines 462-602)

The model starts after the chat has been found (a missing chat raises 404
before anything is persisted) and after the linked `es_ids` have been
collected from the relational store; the relational `db.add/commit` calls
are modelled by the ordered list of `(sender, content)` messages appended.
All in-repo collaborators (`get_embedding`, `search_documents`) are the
models above; the external LLM answer is the oracle `gen`.
`generate_answer` itself never raises (every branch of `llm.py` catches),
and the whole RAG block is additionally wrapped in `try/except` in
`main.py` (lines 553-569); `ragFault = true` injects an exception at the
top of that block, making the degraded-error path reachable. -/

/-- Fixed message of the still-processing short-circuit (`main.py` 502). -/
def stillProcessingMsg : String :=
  "I am still processing the uploaded documents. Please wait a moment and try again."

/-- Canned answer when retrieval finds nothing (`main.py` 564). -/
def noInfoMsg : String :=
  "I couldn't find any relevant information in the uploaded documents."

/-- Degraded answer of the `except` branch (`main.py` 569). -/
def ragErrorMsg : String :=
  "I encountered an error while processing your question. Please try again."

/-- Canned answer when the chat has no linked documents (`main.py` 574). -/
def noDocsMsg : String :=
  "Please upload documents to this chat so I can answer your questions based on them."

/-- Everything external the pipeline touches. -/
structure ChatEnv where
  /-- `get_redis_client()`: `none` when the store is unreachable. -/
  redis : Option RedisState
  /-- The Elasticsearch server. -/
  es : ESEngine
  /-- The loaded embedding model, if any (see `get_embedding`). -/
  emodel : Option (String → Except String (List Float))
  /-- `random.random()` draws for the embedding fallback. -/
  rng : Nat → Float
  /-- The external LLM: `generate_answer(context, query)`'s answer text. -/
  gen : String → String → String
  /-- `hashlib.md5(...).hexdigest()`. -/
  md5h : String → String
  /-- Inject an exception at the top of the RAG `try` block. -/
  ragFault : Bool

/-- Observable outcome of one `create_chat_message` run, instrumented with
call counters and branch flags. -/
structure ChatResult where
  /-- Messages persisted, in order: `(sender, content)`. -/
  messages : List (String × String)
  /-- The `answer` local of the handler. -/
  answer : String
  /-- `retrieved_docs` returned as `"context"` in the payload. -/
  context : List SearchHit
  /-- Final state of the status/cache store. -/
  redis : Option RedisState
  /-- Number of `get_embedding` calls made by the handler. -/
  embedCalls : Nat
  /-- Number of `search_documents` calls made by the handler. -/
  searchCalls : Nat
  /-- Number of `generate_answer` calls made by the handler. -/
  genCalls : Nat
  /-- Number of answer-cache lookups (`redis_client.get(cache_key)`). -/
  cacheReads : Nat
  /-- The run took the still-processing short-circuit. -/
  stillProcessing : Bool
  /-- The run answered from the cache. -/
  fromCache : Bool
  /-- `"message"` field of the returned payload. -/
  payloadMessage : String
  /-- `"ai_message".content` field of the returned payload. -/
  payloadAiContent : String
  /-- `"user_message".content` field of the returned payload. -/
  payloadUserContent : String

/-- The pipeline from the cache check on (`main.py` lines 523-602): compute
`docs_hash`/`cache_key`, look the key up, on a hit answer from the cache,
on a miss run the RAG block (embed, search, generate / canned answers),
then `setex` the answer for 3600 s when a client is present and the answer
is truthy, and finally persist the AI message and build the payload. -/
def ccmMain (env : ChatEnv) (es_ids : List String) (content : String) :
    ChatResult :=
  let cache_key := chatCacheKey env.md5h content es_ids
  let cached := env.redis.bind (fun s => rget s cache_key)
  let reads := if env.redis.isSome then 1 else 0
  match cached with
  | some a =>
    { messages := [("user", content), ("ai", a)], answer := a, context := [],
      redis := env.redis, embedCalls := 0, searchCalls := 0, genCalls := 0,
      cacheReads := reads, stillProcessing := false, fromCache := true,
      payloadMessage := a, payloadAiContent := a, payloadUserContent := content }
  | none =>
    let step : String × List SearchHit × Nat × Nat × Nat :=
      if es_ids.isEmpty then (noDocsMsg, [], 0, 0, 0)
      else if env.ragFault then (ragErrorMsg, [], 0, 0, 0)
      else
        let query_embedding := get_embedding env.emodel env.rng content
        let retrieved_docs := search_documents env.es query_embedding (some es_ids) 3
        if retrieved_docs.isEmpty then (noInfoMsg, [], 1, 1, 0)
        else
          let ctx := String.intercalate "\n\n" (retrieved_docs.map (fun d => d.content))
          (env.gen ctx content, retrieved_docs, 1, 1, 1)
    let answer := step.1
    let retrieved_docs := step.2.1
    let redis2 : Option RedisState :=
      match env.redis with
      | none => none
      | some s => if answer = "" then some s else some (rsetex s cache_key 3600 answer)
    { messages := [("user", content), ("ai", answer)], answer := answer,
      context := retrieved_docs, redis := redis2,
      embedCalls := step.2.2.1, searchCalls := step.2.2.2.1, genCalls := step.2.2.2.2,
      cacheReads := reads, stillProcessing := false, fromCache := false,
      payloadMessage := answer, payloadAiContent := answer,
      payloadUserContent := content }

/-- `POST /chats/{chat_id}/messages` (`create_chat_message`), from the
point where the chat exists and `es_ids` have been collected: persist the
user message; when documents are linked and a Redis client is available,
check every linked id's `doc_status:` key and short-circuit with
`stillProcessingMsg` if any reads `"processing"` (persisting the AI message
and touching neither the answer cache nor the index); otherwise continue
with `ccmMain`. -/
def create_chat_message (env : ChatEnv) (es_ids : List String)
    (content : String) : ChatResult :=
  match env.redis with
  | some s =>
    if es_ids.isEmpty then ccmMain env es_ids content
    else
      let processing_docs :=
        es_ids.filter (fun i => rget s ("doc_status:" ++ i) == some "processing")
      if processing_docs.isEmpty then ccmMain env es_ids content
      else
        { messages := [("user", content), ("ai", stillProcessingMsg)],
          answer := stillProcessingMsg, context := [], redis := some s,
          embedCalls := 0, searchCalls := 0, genCalls := 0, cacheReads := 0,
          stillProcessing := true, fromCache := false,
          payloadMessage := stillProcessingMsg,
          payloadAiContent := stillProcessingMsg,
          payloadUserContent := content }
  | none => ccmMain env es_ids content

/-! ## Ingestion worker (`backend/celery_worker.py`, `process_document`)

The Celery task body: embed the content, write to the index, return a
success string.  The task's Celery-visible outcome is `Except`-valued:
`Except.error` would mean the task raised (making it eligible for a
queue-level retry policy); the source body never raises — `get_embedding`
is total and `index_document` returns `False` instead of raising — and the
`False` return value is not inspected.  The worker never touches Redis, so
the final store is the initial one. -/

/-- Observable outcome of one `process_document` task run. -/
structure WorkerResult where
  /-- Celery outcome: the task's return value, or the exception it raised. -/
  task : Except String String
  /-- `index_document`'s success flag (ignored by the task body). -/
  indexed : Bool
  /-- Resulting index contents. -/
  esDocs : List ESDoc
  /-- Resulting status/cache store (the worker never writes to it). -/
  redis : Option RedisState

/-- `process_document(doc_id, content, filename)`
(`celery_worker.py` lines 16-27). -/
def process_document (env : ChatEnv) (doc_id content filename : String) :
    WorkerResult :=
  let embedding := get_embedding env.emodel env.rng content
  let r := index_document env.es doc_id content embedding [("filename", filename)]
  { task := Except.ok ("Document " ++ filename ++ " processed and indexed."),
    indexed := r.1, esDocs := r.2, redis := env.redis }

/-! ## Theorems -/

/-- Sorting is a function of the multiset: permuted lists sort equally. -/
theorem sortStrings_eq_of_perm {R1 R2 : List String} (h : R1.Perm R2) :
    sortStrings R1 = sortStrings R2 :=
  List.eq_of_perm_of_sorted
    ((List.perm_insertionSort _ R1).trans (h.trans (List.perm_insertionSort _ R2).symm))
    (List.sorted_insertionSort _ R1) (List.sorted_insertionSort _ R2)

/-- C6: for every input text (and every state of the external encoder —
absent, erroring, or returning a vector of any length), `get_embedding`
returns a vector of exactly 384 floats; it is a total function, so it
never raises to its caller, falling back to the pseudo-random vector of
the correct dimension instead. -/
theorem get_embedding_dim (emodel : Option (String → Except String (List Float)))
    (rng : Nat → Float) (text : String) :
    (get_embedding emodel rng text).length = 384 := by
  unfold get_embedding pseudoRandomEmbedding
  cases emodel with
  | none => simp
  | some encode =>
    dsimp only
    cases encode (if text.length > 512 * 4 then String.mk (text.data.take (512 * 4)) else text) with
    | error e => simp
    | ok e =>
      dsimp only
      split
      · simp
      · omega

/-- C7: an embedding of length ≠ 384 is rejected by `index_document`
before any index write (result `False`, index contents unchanged), and a
query vector of length ≠ 384 makes `search_documents` return no results
without querying the index. -/
theorem dim_mismatch_rejected (es : ESEngine) (doc_id content : String)
    (embedding : List Float) (metadata : List (String × String))
    (qv : List Float) (allowed : Option (List String)) (k : Nat)
    (he : embedding.length ≠ 384) (hq : qv.length ≠ 384) :
    index_document es doc_id content embedding metadata = (false, es.docs) ∧
    search_documents_run es qv allowed k = ([], false) := by
  constructor
  · unfold index_document
    by_cases h1 : es.client = false
    · rw [if_pos h1]
    · rw [if_neg h1]
      by_cases h2 : embedding.isEmpty = true
      · rw [if_pos h2]
      · rw [if_neg h2, if_pos he]
  · unfold search_documents_run
    by_cases h1 : es.client = false
    · rw [if_pos h1]
    · rw [if_neg h1]
      by_cases h2 : qv.isEmpty = true
      · rw [if_pos h2]
      · rw [if_neg h2, if_pos hq]

/-- Witness for C7 at a concrete wrong-dimension vector. -/
theorem dim_mismatch_rejected_witness :
    index_document ⟨true, [], false, fun ds _ n => ds.take n⟩ "d" "c" [0] [] =
      (false, []) ∧
    search_documents_run ⟨true, [], false, fun ds _ n => ds.take n⟩ [0] none 3 =
      ([], false) :=
  dim_mismatch_rejected ⟨true, [], false, fun ds _ n => ds.take n⟩ "d" "c" [0] []
    [0] none 3 (by decide) (by decide)

/-- C8 counterexample: in the OpenAI branch a context of 12001 characters
is truncated to its first 12000 characters with NO truncation marker
appended, so the claim "a visible truncation marker is appended" is false
there. -/
theorem openai_truncation_lacks_marker :
    openaiSubmittedContext (String.mk (List.replicate 12001 'x')) ≠
      String.mk ((String.mk (List.replicate 12001 'x')).data.take 12000) ++
        gemini_trunc_marker := by
  intro h
  unfold openaiSubmittedContext at h
  rw [if_pos (by rw [String.length_mk, List.length_replicate]; omega)] at h
  have hd := congrArg String.data h
  simp only [String.data_append] at hd
  have hl := congrArg List.length hd
  simp only [List.length_append, List.length_take, List.length_replicate] at hl
  have hm : gemini_trunc_marker.data.length = 35 := by decide
  omega

/-- C8 amended: long contexts are truncated deterministically from the
tail (the head is kept); the Gemini branch (budget 15000) appends the
visible truncation marker, while the OpenAI branch (budget 12000)
truncates without a marker. -/
theorem context_truncation_deterministic (ctx : String) :
    (ctx.length > 15000 → geminiSubmittedContext ctx =
      String.mk (ctx.data.take 15000) ++ gemini_trunc_marker) ∧
    (ctx.length > 12000 → openaiSubmittedContext ctx =
      String.mk (ctx.data.take 12000)) := by
  constructor
  · intro h
    unfold geminiSubmittedContext
    rw [if_pos h]
  · intro h
    unfold openaiSubmittedContext
    rw [if_pos h]

/-- Witness for C8 amended at a concrete 15001-character context. -/
theorem context_truncation_deterministic_witness :
    geminiSubmittedContext (String.mk (List.replicate 15001 'x')) =
      String.mk ((String.mk (List.replicate 15001 'x')).data.take 15000) ++
        gemini_trunc_marker ∧
    openaiSubmittedContext (String.mk (List.replicate 15001 'x')) =
      String.mk ((String.mk (List.replicate 15001 'x')).data.take 12000) :=
  ⟨(context_truncation_deterministic (String.mk (List.replicate 15001 'x'))).1
      (by rw [String.length_mk, List.length_replicate]; omega),
   (context_truncation_deterministic (String.mk (List.replicate 15001 'x'))).2
      (by rw [String.length_mk, List.length_replicate]; omega)⟩

/-- C1 counterexample: the `/query` endpoint's cache key joins the
restriction ids in the order given, so the two orderings of the set
{"a","b"} — equal as sets — yield different cache keys for the same
query text. -/
theorem qkb_cache_key_order_dependent :
    (["a", "b"] : List String).Perm ["b", "a"] ∧
    qkb_cache_key "q" (some ["a", "b"]) ≠ qkb_cache_key "q" (some ["b", "a"]) := by
  constructor
  · exact List.Perm.swap "b" "a" []
  · decide

/-- C1 amended: in the chat-message pipeline (`create_chat_message`) the
scope fingerprint hashes the sorted restriction set, so any two
restriction sets equal up to ordering give the same fingerprint and the
same cache key, for every hash function and query text; the `/query`
endpoint's key, by contrast, is order-sensitive. -/
theorem chatCacheKey_perm_invariant (md5h : String → String) (content : String)
    (R1 R2 : List String) (h : R1.Perm R2) :
    chatCacheKey md5h content R1 = chatCacheKey md5h content R2 := by
  have hs := sortStrings_eq_of_perm h
  have hl := h.length_eq
  unfold chatCacheKey docsHash
  cases R1 with
  | nil =>
    cases R2 with
    | nil => rfl
    | cons b t => simp at hl
  | cons a t =>
    cases R2 with
    | nil => simp at hl
    | cons b t2 =>
      rw [hs]
      simp

/-- Witness for C1 amended at the concrete pair of orderings. -/
theorem chatCacheKey_perm_invariant_witness :
    chatCacheKey id "q" ["a", "b"] = chatCacheKey id "q" ["b", "a"] :=
  chatCacheKey_perm_invariant id "q" ["a", "b"] ["b", "a"]
    (List.Perm.swap "b" "a" [])

/-- C5: a provided-but-empty restriction set makes `search_documents`
return no results without the knn query ever being sent to the index,
whatever the index contents and query vector; and with a provided
non-empty restriction set every returned hit's document id lies in the
set, given that the engine's ranking only selects from the documents it
is offered (the Elasticsearch contract for a filtered knn query). -/
theorem search_respects_restriction (es : ESEngine) (qv : List Float) (k : Nat)
    (ids : List String) (hit : SearchHit)
    (hrank : ∀ ds v n, ∀ d ∈ es.rank ds v n, d ∈ ds)
    (hmem : hit ∈ search_documents es qv (some ids) k) :
    search_documents_run es qv (some []) k = ([], false) ∧ hit.id ∈ ids := by
  constructor
  · unfold search_documents_run
    by_cases h1 : es.client = false
    · rw [if_pos h1]
    · rw [if_neg h1]
      by_cases h2 : qv.isEmpty = true
      · rw [if_pos h2]
      · rw [if_neg h2]
        by_cases h3 : qv.length ≠ 384
        · rw [if_pos h3]
        · rw [if_neg h3, if_pos rfl]
  · unfold search_documents search_documents_run at hmem
    by_cases h1 : es.client = false
    · rw [if_pos h1] at hmem; simp at hmem
    · rw [if_neg h1] at hmem
      by_cases h2 : qv.isEmpty = true
      · rw [if_pos h2] at hmem; simp at hmem
      · rw [if_neg h2] at hmem
        by_cases h3 : qv.length ≠ 384
        · rw [if_pos h3] at hmem; simp at hmem
        · rw [if_neg h3] at hmem
          by_cases h4 : (some ids : Option (List String)) = some []
          · rw [if_pos h4] at hmem; simp at hmem
          · rw [if_neg h4] at hmem
            have hne : ids.isEmpty = false := by
              cases ids with
              | nil => exact absurd rfl h4
              | cons a t => rfl
            dsimp only at hmem
            rw [hne] at hmem
            simp only [Bool.false_eq_true, if_false] at hmem
            obtain ⟨d, hd, hfd⟩ := List.mem_map.1 hmem
            have hdf := hrank _ _ _ d hd
            rw [List.mem_filter] at hdf
            have hc : ids.contains d.id = true := hdf.2
            rw [← hfd]
            simpa using hc

/-- Witness for C5 at a one-document index with a take-k ranking. -/
theorem search_respects_restriction_witness :
    search_documents_run ⟨true, [⟨"d1", "c", [], []⟩], false, fun ds _ n => ds.take n⟩
      (pseudoRandomEmbedding (fun _ => 0)) (some []) 3 = ([], false) ∧
    (⟨"d1", "c", []⟩ : SearchHit).id ∈ ["d1"] :=
  search_respects_restriction
    ⟨true, [⟨"d1", "c", [], []⟩], false, fun ds _ n => ds.take n⟩
    (pseudoRandomEmbedding (fun _ => 0)) 3 ["d1"] ⟨"d1", "c", []⟩
    (fun ds _ n d hd => List.take_subset n ds hd)
    (by set_option maxRecDepth 4096 in decide)

/-- C4: when the store is reachable and some linked document id has
status `"processing"`, `create_chat_message` answers with the fixed
still-processing message, makes no embedding, search or generation call,
does not read the answer cache, leaves the store exactly as it was (so
the message cannot be found in the cache under the run's key afterwards
unless it was already there beforehand), and still persists the user and
AI messages. -/
theorem still_processing_short_circuit (env : ChatEnv) (es_ids : List String)
    (content : String) (s : RedisState) (i : String)
    (hr : env.redis = some s) (hi : i ∈ es_ids)
    (hp : rget s ("doc_status:" ++ i) = some "processing") :
    (create_chat_message env es_ids content).answer = stillProcessingMsg ∧
    (create_chat_message env es_ids content).redis = some s ∧
    (create_chat_message env es_ids content).embedCalls = 0 ∧
    (create_chat_message env es_ids content).searchCalls = 0 ∧
    (create_chat_message env es_ids content).genCalls = 0 ∧
    (create_chat_message env es_ids content).cacheReads = 0 ∧
    (create_chat_message env es_ids content).stillProcessing = true ∧
    (create_chat_message env es_ids content).messages =
      [("user", content), ("ai", stillProcessingMsg)] := by
  have hne : es_ids.isEmpty = false := by
    cases es_ids with
    | nil => cases hi
    | cons a t => rfl
  have hmem : i ∈ es_ids.filter
      (fun j => rget s ("doc_status:" ++ j) == some "processing") := by
    rw [List.mem_filter]
    exact ⟨hi, by simp [hp]⟩
  have hpe : (es_ids.filter
      (fun j => rget s ("doc_status:" ++ j) == some "processing")).isEmpty = false := by
    cases hh : es_ids.filter (fun j => rget s ("doc_status:" ++ j) == some "processing") with
    | nil => rw [hh] at hmem; cases hmem
    | cons a t => rfl
  unfold create_chat_message
  rw [hr]
  simp [hne, hpe]

/-- Witness for C4 at a concrete store holding one processing flag. -/
theorem still_processing_short_circuit_witness :
    (create_chat_message
      ⟨some [("doc_status:d1", 3600, "processing")],
       ⟨true, [], false, fun ds _ n => ds.take n⟩,
       none, fun _ => 0, fun _ _ => "ans", id, false⟩ ["d1"] "q").answer =
      stillProcessingMsg ∧
    (create_chat_message
      ⟨some [("doc_status:d1", 3600, "processing")],
       ⟨true, [], false, fun ds _ n => ds.take n⟩,
       none, fun _ => 0, fun _ _ => "ans", id, false⟩ ["d1"] "q").redis =
      some [("doc_status:d1", 3600, "processing")] ∧
    (create_chat_message
      ⟨some [("doc_status:d1", 3600, "processing")],
       ⟨true, [], false, fun ds _ n => ds.take n⟩,
       none, fun _ => 0, fun _ _ => "ans", id, false⟩ ["d1"] "q").embedCalls = 0 ∧
    (create_chat_message
      ⟨some [("doc_status:d1", 3600, "processing")],
       ⟨true, [], false, fun ds _ n => ds.take n⟩,
       none, fun _ => 0, fun _ _ => "ans", id, false⟩ ["d1"] "q").searchCalls = 0 ∧
    (create_chat_message
      ⟨some [("doc_status:d1", 3600, "processing")],
       ⟨true, [], false, fun ds _ n => ds.take n⟩,
       none, fun _ => 0, fun _ _ => "ans", id, false⟩ ["d1"] "q").genCalls = 0 ∧
    (create_chat_message
      ⟨some [("doc_status:d1", 3600, "processing")],
       ⟨true, [], false, fun ds _ n => ds.take n⟩,
       none, fun _ => 0, fun _ _ => "ans", id, false⟩ ["d1"] "q").cacheReads = 0 ∧
    (create_chat_message
      ⟨some [("doc_status:d1", 3600, "processing")],
       ⟨true, [], false, fun ds _ n => ds.take n⟩,
       none, fun _ => 0, fun _ _ => "ans", id, false⟩ ["d1"] "q").stillProcessing = true ∧
    (create_chat_message
      ⟨some [("doc_status:d1", 3600, "processing")],
       ⟨true, [], false, fun ds _ n => ds.take n⟩,
       none, fun _ => 0, fun _ _ => "ans", id, false⟩ ["d1"] "q").messages =
      [("user", "q"), ("ai", stillProcessingMsg)] :=
  still_processing_short_circuit
    ⟨some [("doc_status:d1", 3600, "processing")],
     ⟨true, [], false, fun ds _ n => ds.take n⟩,
     none, fun _ => 0, fun _ _ => "ans", id, false⟩ ["d1"] "q"
    [("doc_status:d1", 3600, "processing")] "d1" rfl (by decide) (by decide)

/-- Every branch of `ccmMain` persists the user message and then the AI
message, and reports the AI content as the payload answer. -/
theorem ccmMain_shape (env : ChatEnv) (es_ids : List String) (content : String) :
    (ccmMain env es_ids content).messages =
      [("user", content), ("ai", (ccmMain env es_ids content).answer)] ∧
    (ccmMain env es_ids content).payloadMessage =
      (ccmMain env es_ids content).answer ∧
    (ccmMain env es_ids content).payloadAiContent =
      (ccmMain env es_ids content).answer ∧
    (ccmMain env es_ids content).payloadUserContent = content := by
  unfold ccmMain
  dsimp only
  split
  · exact ⟨rfl, rfl, rfl, rfl⟩
  · exact ⟨rfl, rfl, rfl, rfl⟩

/-- C10: on every path of `create_chat_message` — still-processing
short-circuit, cache hit, generated answer, no-results, degraded-error and
no-documents alike — exactly one user message and then exactly one AI
message are persisted, and the payload's answer text equals the persisted
AI message content. -/
theorem chat_message_persists_user_then_ai (env : ChatEnv) (es_ids : List String)
    (content : String) :
    (create_chat_message env es_ids content).messages =
      [("user", content), ("ai", (create_chat_message env es_ids content).answer)] ∧
    (create_chat_message env es_ids content).payloadMessage =
      (create_chat_message env es_ids content).answer ∧
    (create_chat_message env es_ids content).payloadAiContent =
      (create_chat_message env es_ids content).answer ∧
    (create_chat_message env es_ids content).payloadUserContent = content := by
  unfold create_chat_message
  split
  · split
    · exact ccmMain_shape env es_ids content
    · dsimp only
      split
      · exact ccmMain_shape env es_ids content
      · exact ⟨rfl, rfl, rfl, rfl⟩
  · exact ccmMain_shape env es_ids content

/-- C9 counterexample: with the status/cache store unreachable at
connection time, the document-listing endpoint reports the status
`"unknown"`, not `"ready"` — the per-document status is not treated as
ready there. -/
theorem docStatus_unreachable_not_ready : docStatus none "d1" ≠ "ready" := by
  decide

/-- C9 amended: when the store is unreachable at connection time, the
chat-message pipeline degrades rather than failing — no cache read is
attempted (so every lookup is a miss and the run never answers from the
cache), no cache write happens, and the processing-status check is
skipped, so no document blocks the run as still-processing — while the
document-listing endpoint reports the status `"unknown"` (not `"ready"`)
for every document. -/
theorem redis_down_degrades (env : ChatEnv) (es_ids : List String)
    (content : String) (hr : env.redis = none) :
    (create_chat_message env es_ids content).redis = none ∧
    (create_chat_message env es_ids content).stillProcessing = false ∧
    (create_chat_message env es_ids content).fromCache = false ∧
    (create_chat_message env es_ids content).cacheReads = 0 ∧
    (∀ es_id : String, docStatus none es_id = "unknown") := by
  unfold create_chat_message ccmMain
  rw [hr]
  exact ⟨rfl, rfl, rfl, rfl, fun _ => rfl⟩

/-- Witness for C9 amended at a concrete environment with the store down. -/
theorem redis_down_degrades_witness :
    (create_chat_message ⟨none, ⟨true, [], false, fun ds _ n => ds.take n⟩,
        none, fun _ => 0, fun _ _ => "ans", id, false⟩ ["d1"] "q").redis = none ∧
    (create_chat_message ⟨none, ⟨true, [], false, fun ds _ n => ds.take n⟩,
        none, fun _ => 0, fun _ _ => "ans", id, false⟩ ["d1"] "q").stillProcessing = false ∧
    (create_chat_message ⟨none, ⟨true, [], false, fun ds _ n => ds.take n⟩,
        none, fun _ => 0, fun _ _ => "ans", id, false⟩ ["d1"] "q").fromCache = false ∧
    (create_chat_message ⟨none, ⟨true, [], false, fun ds _ n => ds.take n⟩,
        none, fun _ => 0, fun _ _ => "ans", id, false⟩ ["d1"] "q").cacheReads = 0 ∧
    (∀ es_id : String, docStatus none es_id = "unknown") :=
  redis_down_degrades ⟨none, ⟨true, [], false, fun ds _ n => ds.take n⟩,
    none, fun _ => 0, fun _ _ => "ans", id, false⟩ ["d1"] "q" rfl

/-- On a cache miss with a reachable store and no still-processing
short-circuit possible inside `ccmMain`, the answer is written back under
the run's cache key with TTL 3600 exactly when it is non-empty. -/
theorem ccmMain_cache_write (env : ChatEnv) (es_ids : List String)
    (content : String) (s : RedisState) (hr : env.redis = some s)
    (hmiss : rget s (chatCacheKey env.md5h content es_ids) = none) :
    ((ccmMain env es_ids content).answer ≠ "" →
      (ccmMain env es_ids content).redis =
        some (rsetex s (chatCacheKey env.md5h content es_ids) 3600
          (ccmMain env es_ids content).answer)) ∧
    ((ccmMain env es_ids content).answer = "" →
      (ccmMain env es_ids content).redis = some s) := by
  unfold ccmMain
  rw [hr]
  simp only [Option.some_bind]
  rw [hmiss]
  dsimp only
  constructor
  · intro hne
    rw [if_neg hne]
  · intro he
    rw [if_pos he]

/-- C3 amended: for every run of `create_chat_message` that reaches the
generation step (cache miss, no linked document still processing) with a
reachable store, the resulting answer is cached under the cache key with
TTL 3600 s unless it is the empty string — the canned no-results,
no-documents and degraded-error messages are all non-empty and are
therefore cached too. -/
theorem answer_cached_unless_empty (env : ChatEnv) (es_ids : List String)
    (content : String) (s : RedisState) (hr : env.redis = some s)
    (hnp : ∀ i ∈ es_ids, ¬ rget s ("doc_status:" ++ i) = some "processing")
    (hmiss : rget s (chatCacheKey env.md5h content es_ids) = none) :
    ((create_chat_message env es_ids content).answer ≠ "" →
      (create_chat_message env es_ids content).redis =
        some (rsetex s (chatCacheKey env.md5h content es_ids) 3600
          (create_chat_message env es_ids content).answer)) ∧
    ((create_chat_message env es_ids content).answer = "" →
      (create_chat_message env es_ids content).redis = some s) := by
  have hfe : es_ids.filter
      (fun j => rget s ("doc_status:" ++ j) == some "processing") = [] := by
    rw [List.filter_eq_nil_iff]
    intro a ha
    simp [hnp a ha]
  unfold create_chat_message
  rw [hr]
  dsimp only
  by_cases he : es_ids.isEmpty = true
  · rw [if_pos he]
    exact ccmMain_cache_write env es_ids content s hr hmiss
  · rw [if_neg he, hfe]
    exact ccmMain_cache_write env es_ids content s hr hmiss

/-- Witness for C3 amended at a concrete environment (one linked document
not in the index, empty store: the run produces the canned no-results
answer and caches it). -/
theorem answer_cached_unless_empty_witness :
    ((create_chat_message ⟨some [], ⟨true, [], false, fun ds _ n => ds.take n⟩,
        none, fun _ => 0, fun _ _ => "unused", fun _ => "H", false⟩ ["d1"] "q").answer ≠ "" →
      (create_chat_message ⟨some [], ⟨true, [], false, fun ds _ n => ds.take n⟩,
        none, fun _ => 0, fun _ _ => "unused", fun _ => "H", false⟩ ["d1"] "q").redis =
        some (rsetex [] (chatCacheKey (fun _ => "H") "q" ["d1"]) 3600
          (create_chat_message ⟨some [], ⟨true, [], false, fun ds _ n => ds.take n⟩,
            none, fun _ => 0, fun _ _ => "unused", fun _ => "H", false⟩ ["d1"] "q").answer)) ∧
    ((create_chat_message ⟨some [], ⟨true, [], false, fun ds _ n => ds.take n⟩,
        none, fun _ => 0, fun _ _ => "unused", fun _ => "H", false⟩ ["d1"] "q").answer = "" →
      (create_chat_message ⟨some [], ⟨true, [], false, fun ds _ n => ds.take n⟩,
        none, fun _ => 0, fun _ _ => "unused", fun _ => "H", false⟩ ["d1"] "q").redis =
        some []) :=
  answer_cached_unless_empty
    ⟨some [], ⟨true, [], false, fun ds _ n => ds.take n⟩,
     none, fun _ => 0, fun _ _ => "unused", fun _ => "H", false⟩ ["d1"] "q" []
    rfl (by decide) (by decide)

/-- C3 counterexample: a run whose retrieval finds nothing produces the
canned no-results message, and that canned message IS cached under the
run's cache key with TTL 3600 — refuting "only genuinely generated
answers are cached". -/
theorem canned_no_info_answer_cached :
    (create_chat_message ⟨some [], ⟨true, [], false, fun ds _ n => ds.take n⟩,
        none, fun _ => 0, fun _ _ => "unused", fun _ => "H", false⟩ ["d1"] "q").answer =
      noInfoMsg ∧
    (create_chat_message ⟨some [], ⟨true, [], false, fun ds _ n => ds.take n⟩,
        none, fun _ => 0, fun _ _ => "unused", fun _ => "H", false⟩ ["d1"] "q").redis =
      some [("q:H", 3600, noInfoMsg)] := by
  set_option maxRecDepth 4096 in decide

/-- C2: with the document index unreachable, the ingestion task still
reports Celery success "Document f.txt processed and indexed." — the
index-write failure is swallowed (`index_document` returned `False`, the
index is unchanged), nothing is raised for the queueing layer's retry
policy to act on, and the document's `doc_status` key is left at
`"processing"` (the worker never touches the store). -/
theorem ingestion_failure_swallowed :
    (process_document
      ⟨some [("doc_status:d1", 3600, "processing")],
       ⟨false, [], false, fun ds _ n => ds.take n⟩,
       none, fun _ => 0, fun _ _ => "", id, false⟩ "d1" "text" "f.txt").task =
      Except.ok "Document f.txt processed and indexed." ∧
    (process_document
      ⟨some [("doc_status:d1", 3600, "processing")],
       ⟨false, [], false, fun ds _ n => ds.take n⟩,
       none, fun _ => 0, fun _ _ => "", id, false⟩ "d1" "text" "f.txt").indexed =
      false ∧
    (process_document
      ⟨some [("doc_status:d1", 3600, "processing")],
       ⟨false, [], false, fun ds _ n => ds.take n⟩,
       none, fun _ => 0, fun _ _ => "", id, false⟩ "d1" "text" "f.txt").esDocs.length =
      0 ∧
    (process_document
      ⟨some [("doc_status:d1", 3600, "processing")],
       ⟨false, [], false, fun ds _ n => ds.take n⟩,
       none, fun _ => 0, fun _ _ => "", id, false⟩ "d1" "text" "f.txt").redis =
      some [("doc_status:d1", 3600, "processing")] ∧
    rget [("doc_status:d1", 3600, "processing")] "doc_status:d1" =
      some "processing" := by
  refine ⟨rfl, rfl, rfl, rfl, by decide⟩

end AIKA
